import Mathlib

/-! client-inbound-video-room.js: the webhook handler, the timeout and the event stream.

A shallow embedding of the mutable module state of `client-inbound-video-room.js`
(`activeCall`, `call`, `sseMsg`), of `voiceEventHandler`, `timeOutHandler`, `shutdown` and of
the `setInterval` callback of the `/event-stream` route, followed by theorems about them.

Calls that leave the module (`logger.info`, `acceptCall`, `hangupCall`, `JoinRoom`,
`setTimeout(timeOutHandler, _)`, `shutdown`) are recorded, in program order, in a log of
effects. `res.write` calls of the subscriber are recorded in `stream`. A handler that raises
the TypeError of a failed string conversion ends in `Except.error`, carrying the state it had
reached.
-/

namespace InboundVideoRoom

/-- A JavaScript value as far as this program can observe it. The program compares values
with `undefined` and with string literals, tests them for truthiness, converts them to text
in template literals and passes them on. A number is carried as the text `Number::toString`
gives for it (`0` for both zeros), an array or object as the text its string conversion
gives, `none` when that conversion throws a TypeError (the parsed JSON `{"toString": 1}`,
whose own `toString` is not callable, or an array that holds such an object). -/
inductive JSVal where
  | undefined
  | null
  | bool (b : Bool)
  | num (text : String)
  | str (s : String)
  | object (text : Option String)
  deriving DecidableEq

namespace JSVal

/-- The text a template literal puts in place of the value; `none` when the conversion
throws a TypeError. -/
def toStr : JSVal → Option String
  | undefined => some "undefined"
  | null => some "null"
  | bool true => some "true"
  | bool false => some "false"
  | num text => some text
  | str s => some s
  | object text => text

/-- JavaScript truthiness: `undefined`, `null`, `false`, `0` and the empty string are falsy. -/
def truthy : JSVal → Bool
  | undefined => false
  | null => false
  | bool b => b
  | num text => text != "0"
  | str s => s != ""
  | object _ => true

/-- The test `v != undefined` (loose inequality: `null` equals `undefined`). -/
def looseNeUndefined : JSVal → Bool
  | undefined => false
  | null => false
  | _ => true

/-- The test `v !== undefined` (strict inequality). -/
def strictNeUndefined : JSVal → Bool
  | undefined => false
  | _ => true

/-- The test `v === lit` for a string literal `lit`. -/
def strictEqStr (v : JSVal) (lit : String) : Bool :=
  match v with
  | str s => s == lit
  | _ => false

end JSVal

/-- The notification object passed to `voiceEventHandler`: the four properties the handler
reads. A missing property reads as `undefined`; other properties are never read. -/
structure VoiceEvent where
  state : JSVal
  voice_id : JSVal
  to_ : JSVal
  playstate : JSVal
  deriving DecidableEq

/-- The object `call`, created as an empty object: the two properties the handler assigns
(`to_` is its property `to`, a reserved word here). -/
structure Call where
  voice_id : JSVal
  to_ : JSVal
  deriving DecidableEq

/-- A call that leaves the module, as recorded in the log of effects. `setTimeout delay`
stands for `setTimeout(timeOutHandler, delay)`, `shutdown` for the call `shutdown()`. -/
inductive Effect where
  | loggerInfo (msg : String)
  | acceptCall (voice_id : JSVal)
  | hangupCall (voice_id : JSVal)
  | JoinRoom (voice_id : JSVal) (room_id : JSVal)
  | setTimeout (delay : Nat)
  | shutdown
  deriving DecidableEq

/-- The module state together with the clock, the pending `timeOutHandler` timers (their
deadlines in ms, in arming order), the log of effects, the chunks written to the
subscriber's response, the number of TypeErrors raised by handler runs so far and whether
the process has ended. -/
structure World where
  now : Nat
  activeCall : Bool
  call : Call
  sseMsg : List String
  timers : List Nat
  effects : List Effect
  stream : List String
  thrown : Nat
  exited : Bool
  deriving DecidableEq

/-- The state after the module is loaded: `activeCall = false`, `call = {}`, `sseMsg = []`. -/
def init : World :=
  { now := 0
    activeCall := false
    call := { voice_id := .undefined, to_ := .undefined }
    sseMsg := []
    timers := []
    effects := []
    stream := []
    thrown := 0
    exited := false }

/-- The function `shutdown`: `server.close` with `process.exit(0)` in its callback, and
`process.exit(1)` after 10 s. The call is recorded as one effect and ends the process:
nothing of the module runs after it. -/
def shutdown (w : World) : World :=
  { w with effects := w.effects ++ [.shutdown], exited := true }

/-- The function `timeOutHandler`: the template literal (which may throw), `logger.info`,
`hangupCall(call.voice_id, ...)`, `shutdown()`. -/
def timeOutHandler (w : World) : Except World World :=
  match w.call.voice_id.toStr with
  | none => .error w
  | some s =>
    .ok (shutdown { w with
      effects := w.effects ++
        [ .loggerInfo ("[" ++ s ++ "] Disconnecting the call"),
          .hangupCall w.call.voice_id ] })

/-- The first `if` of `voiceEventHandler`: the branch on `voiceEvent.state`. Each case
builds `eventMsg` from `call.voice_id` first, which throws when that value has no string
conversion. -/
def stateBranch (voiceEvent : VoiceEvent) (w : World) : Except World World :=
  if voiceEvent.state.looseNeUndefined then
    if voiceEvent.state.strictEqStr "incomingcall" then
      let w1 := { w with
        activeCall := true
        call := { voice_id := voiceEvent.voice_id, to_ := voiceEvent.to_ } }
      match w1.call.voice_id.toStr with
      | none => .error w1
      | some s =>
        let eventMsg := "[" ++ s ++ "] Received an inbound Call"
        .ok { w1 with
          sseMsg := w1.sseMsg ++ [eventMsg]
          effects := w1.effects ++ [.loggerInfo eventMsg, .acceptCall w1.call.voice_id] }
    else if voiceEvent.state.truthy && voiceEvent.state.strictEqStr "disconnected" then
      match w.call.voice_id.toStr with
      | none => .error w
      | some s =>
        let eventMsg := "[" ++ s ++ "] Call is disconnected"
        .ok { w with
          sseMsg := w.sseMsg ++ [eventMsg]
          effects := w.effects ++ [.loggerInfo eventMsg] }
    else if voiceEvent.state.truthy && voiceEvent.state.strictEqStr "connected" then
      match w.call.voice_id.toStr with
      | none => .error w
      | some s =>
        let eventMsg := "[" ++ s ++ "] Call is connected"
        .ok { w with
          sseMsg := w.sseMsg ++ [eventMsg]
          effects := w.effects ++ [.loggerInfo eventMsg] }
    else if voiceEvent.state.truthy && voiceEvent.state.strictEqStr "joined" then
      match w.call.voice_id.toStr with
      | none => .error w
      | some s =>
        let eventMsg := "[" ++ s ++ "] Call joined Video Room"
        .ok { w with
          sseMsg := w.sseMsg ++ [eventMsg]
          timers := w.timers ++ [w.now + 20000]
          effects := w.effects ++ [.loggerInfo eventMsg, .setTimeout 20000] }
    else .ok w
  else .ok w

/-- The second `if` of `voiceEventHandler`: the branch on `voiceEvent.playstate`. -/
def playstateBranch (room_id : JSVal) (voiceEvent : VoiceEvent) (w : World) :
    Except World World :=
  if voiceEvent.playstate.strictNeUndefined then
    if voiceEvent.playstate.strictEqStr "playfinished" then
      match w.call.voice_id.toStr with
      | none => .error w
      | some s =>
        let eventMsg := "[" ++ s ++ "] Received playfinsihed event"
        .ok { w with
          sseMsg := w.sseMsg ++ [eventMsg]
          effects := w.effects ++ [.loggerInfo eventMsg, .JoinRoom w.call.voice_id room_id] }
    else .ok w
  else .ok w

/-- The function `voiceEventHandler`; `room_id` is the constant read from `VIDEO_ROOMID`.
A TypeError raised in the first `if` ends the function: the second `if` does not run. -/
def voiceEventHandler (room_id : JSVal) (voiceEvent : VoiceEvent) (w : World) :
    Except World World :=
  match stateBranch voiceEvent w with
  | .error w1 => .error w1
  | .ok w1 => playstateBranch room_id voiceEvent w1

/-- The route `/event` emitting `voicestateevent`: `voiceEventHandler` runs; an error it
raises is caught by the route's framework, the process goes on with the state reached. -/
def deliver (room_id : JSVal) (voiceEvent : VoiceEvent) (w : World) : World :=
  match voiceEventHandler room_id voiceEvent w with
  | .ok w1 => w1
  | .error w1 => { w1 with thrown := w1.thrown + 1 }

/-- The lodash test `_.isEmpty(sseMsg[0])`: true when the array has no first element or when
that element is the empty string. -/
def isEmptyHead : List String → Bool
  | [] => true
  | m :: _ => m == ""

/-- One run of the `setInterval` callback of `/event-stream` for a subscriber whose `id` was
computed when it connected: write `sseMsg[0]`, then `sseMsg.pop()`. -/
def drainTick (id : String) (w : World) : World :=
  if !isEmptyHead w.sseMsg then
    let data := w.sseMsg.headD ""
    { w with
      stream := w.stream ++ ["id: " ++ id ++ "\n", "data: " ++ data ++ "\n\n"]
      sseMsg := w.sseMsg.dropLast }
  else w

/-- Run `timeOutHandler` for the due timers, in arming order, as long as the process is
running. An error raised in a timer callback is uncaught and ends the process. -/
def fireTimers : List Nat → World → World
  | [], w => w
  | _ :: rest, w =>
    if w.exited then w
    else
      match timeOutHandler w with
      | .ok w1 => fireTimers rest w1
      | .error w1 => { w1 with thrown := w1.thrown + 1, exited := true }

/-- Fire the pending timers whose deadline has been reached and drop them from the pending
ones. -/
def fireDue (w : World) : World :=
  fireTimers (w.timers.filter (fun d => d ≤ w.now))
    { w with timers := w.timers.filter (fun d => ¬ d ≤ w.now) }

/-- What happens next: a notification reaches `voiceEventHandler`, the drain callback of the
subscriber runs, or time passes (timers that become due fire). -/
inductive Step where
  | notify (voiceEvent : VoiceEvent)
  | tick (id : String)
  | elapse (ms : Nat)
  deriving DecidableEq

/-- One step. Once the process has ended only the clock moves. -/
def step (room_id : JSVal) (w : World) : Step → World
  | .notify voiceEvent => if w.exited then w else deliver room_id voiceEvent w
  | .tick id => if w.exited then w else drainTick id w
  | .elapse ms =>
    if w.exited then { w with now := w.now + ms } else fireDue { w with now := w.now + ms }

/-- A run of steps. -/
def run (room_id : JSVal) (steps : List Step) (w : World) : World :=
  steps.foldl (step room_id) w

/-- Handle a sequence of notifications in arrival order. -/
def handleAll (room_id : JSVal) (events : List VoiceEvent) (w : World) : World :=
  events.foldl (fun acc e => deliver room_id e acc) w

/-- The time that passes during a run. -/
def elapsed : List Step → Nat
  | [] => 0
  | .elapse ms :: rest => ms + elapsed rest
  | _ :: rest => elapsed rest

/-- A notification with no property set. -/
def emptyEvent : VoiceEvent :=
  { state := .undefined, voice_id := .undefined, to_ := .undefined, playstate := .undefined }

/-- The notification `{state: 'incomingcall', voice_id: 'V1', to: '+1555'}`. -/
def incomingV1 : VoiceEvent :=
  { emptyEvent with state := .str "incomingcall", voice_id := .str "V1", to_ := .str "+1555" }

/-- The notification `{state: 'incomingcall', voice_id: {"toString": 1}, to: '+1555'}`, whose
`voice_id` has no string conversion. -/
def incomingNoText : VoiceEvent :=
  { emptyEvent with
    state := .str "incomingcall", voice_id := .object none, to_ := .str "+1555" }

/-- The notification `{state: s}`. -/
def stateEvent (s : String) : VoiceEvent :=
  { emptyEvent with state := .str s }

/-- The notification `{playstate: 'playfinished'}`. -/
def playfinishedEvent : VoiceEvent :=
  { emptyEvent with playstate := .str "playfinished" }

/-- The delays of the timers armed in a log of effects. -/
def armedDelays : List Effect → List Nat
  | [] => []
  | .setTimeout d :: rest => d :: armedDelays rest
  | _ :: rest => armedDelays rest

/-- The `JoinRoom` invocations in a log of effects. -/
def joinRooms (l : List Effect) : List Effect :=
  l.filter (fun x => match x with
    | .JoinRoom _ _ => true
    | _ => false)

/-- The notification that keeps only the properties the `state` branch reads. -/
def stateOnly (e : VoiceEvent) : VoiceEvent :=
  { e with playstate := .undefined }

/-- The notification that keeps only the `playstate` property. -/
def playstateOnly (e : VoiceEvent) : VoiceEvent :=
  { emptyEvent with playstate := e.playstate }

/-- The effects that handling `e` in state `w` adds to the log. -/
def newEffects (room_id : JSVal) (e : VoiceEvent) (w : World) : List Effect :=
  (deliver room_id e w).effects.drop w.effects.length

/-! ## The two branches, case by case -/

theorem strictEqStr_eq_true (v : JSVal) (lit : String) :
    v.strictEqStr lit = true ↔ v = .str lit := by
  cases v <;> simp [JSVal.strictEqStr]

theorem strictEqStr_eq_false (v : JSVal) (lit : String) :
    v.strictEqStr lit = false ↔ v ≠ .str lit := by
  cases v <;> simp [JSVal.strictEqStr]

theorem stateBranch_incomingcall (e : VoiceEvent) (w : World)
    (h : e.state = .str "incomingcall") :
    stateBranch e w =
      match e.voice_id.toStr with
      | none => .error { w with
          activeCall := true
          call := { voice_id := e.voice_id, to_ := e.to_ } }
      | some s => .ok { w with
          activeCall := true
          call := { voice_id := e.voice_id, to_ := e.to_ }
          sseMsg := w.sseMsg ++ ["[" ++ s ++ "] Received an inbound Call"]
          effects := w.effects ++
            [.loggerInfo ("[" ++ s ++ "] Received an inbound Call"),
             .acceptCall e.voice_id] } := by
  simp [stateBranch, h, JSVal.looseNeUndefined, JSVal.strictEqStr]

theorem stateBranch_disconnected (e : VoiceEvent) (w : World)
    (h : e.state = .str "disconnected") :
    stateBranch e w =
      match w.call.voice_id.toStr with
      | none => .error w
      | some s => .ok { w with
          sseMsg := w.sseMsg ++ ["[" ++ s ++ "] Call is disconnected"]
          effects := w.effects ++ [.loggerInfo ("[" ++ s ++ "] Call is disconnected")] } := by
  simp [stateBranch, h, JSVal.looseNeUndefined, JSVal.strictEqStr, JSVal.truthy]

theorem stateBranch_connected (e : VoiceEvent) (w : World)
    (h : e.state = .str "connected") :
    stateBranch e w =
      match w.call.voice_id.toStr with
      | none => .error w
      | some s => .ok { w with
          sseMsg := w.sseMsg ++ ["[" ++ s ++ "] Call is connected"]
          effects := w.effects ++ [.loggerInfo ("[" ++ s ++ "] Call is connected")] } := by
  simp [stateBranch, h, JSVal.looseNeUndefined, JSVal.strictEqStr, JSVal.truthy]

theorem stateBranch_joined (e : VoiceEvent) (w : World)
    (h : e.state = .str "joined") :
    stateBranch e w =
      match w.call.voice_id.toStr with
      | none => .error w
      | some s => .ok { w with
          sseMsg := w.sseMsg ++ ["[" ++ s ++ "] Call joined Video Room"]
          timers := w.timers ++ [w.now + 20000]
          effects := w.effects ++
            [.loggerInfo ("[" ++ s ++ "] Call joined Video Room"), .setTimeout 20000] } := by
  simp [stateBranch, h, JSVal.looseNeUndefined, JSVal.strictEqStr, JSVal.truthy]

theorem stateBranch_other (e : VoiceEvent) (w : World)
    (h1 : e.state ≠ .str "incomingcall") (h2 : e.state ≠ .str "disconnected")
    (h3 : e.state ≠ .str "connected") (h4 : e.state ≠ .str "joined") :
    stateBranch e w = .ok w := by
  rw [← strictEqStr_eq_false] at h1 h2 h3 h4
  simp [stateBranch, h1, h2, h3, h4]

theorem playstateBranch_playfinished (room_id : JSVal) (e : VoiceEvent) (w : World)
    (h : e.playstate = .str "playfinished") :
    playstateBranch room_id e w =
      match w.call.voice_id.toStr with
      | none => .error w
      | some s => .ok { w with
          sseMsg := w.sseMsg ++ ["[" ++ s ++ "] Received playfinsihed event"]
          effects := w.effects ++
            [.loggerInfo ("[" ++ s ++ "] Received playfinsihed event"),
             .JoinRoom w.call.voice_id room_id] } := by
  simp [playstateBranch, h, JSVal.strictNeUndefined, JSVal.strictEqStr]

theorem playstateBranch_other (room_id : JSVal) (e : VoiceEvent) (w : World)
    (h : e.playstate ≠ .str "playfinished") :
    playstateBranch room_id e w = .ok w := by
  rw [← strictEqStr_eq_false] at h
  simp [playstateBranch, h]

theorem state_cases (e : VoiceEvent) :
    e.state = .str "incomingcall" ∨ e.state = .str "disconnected" ∨
    e.state = .str "connected" ∨ e.state = .str "joined" ∨
    (e.state ≠ .str "incomingcall" ∧ e.state ≠ .str "disconnected" ∧
      e.state ≠ .str "connected" ∧ e.state ≠ .str "joined") := by
  by_cases h1 : e.state = .str "incomingcall"
  · exact Or.inl h1
  by_cases h2 : e.state = .str "disconnected"
  · exact Or.inr (Or.inl h2)
  by_cases h3 : e.state = .str "connected"
  · exact Or.inr (Or.inr (Or.inl h3))
  by_cases h4 : e.state = .str "joined"
  · exact Or.inr (Or.inr (Or.inr (Or.inl h4)))
  exact Or.inr (Or.inr (Or.inr (Or.inr ⟨h1, h2, h3, h4⟩)))

/-! ## One notification -/

theorem deliver_frame (room_id : JSVal) (e : VoiceEvent) (w : World) :
    (deliver room_id e w).now = w.now ∧ (deliver room_id e w).stream = w.stream ∧
    (deliver room_id e w).exited = w.exited := by
  cases hv : e.voice_id.toStr <;> cases hw : w.call.voice_id.toStr <;>
  rcases state_cases e with h | h | h | h | ⟨h1, h2, h3, h4⟩ <;>
  by_cases hp : e.playstate = .str "playfinished" <;>
  simp [deliver, voiceEventHandler, stateBranch_incomingcall, stateBranch_disconnected,
    stateBranch_connected, stateBranch_joined, stateBranch_other,
    playstateBranch_playfinished, playstateBranch_other, *]

theorem deliver_timers (room_id : JSVal) (e : VoiceEvent) (w : World) :
    (deliver room_id e w).timers =
      w.timers ++ (if e.state = .str "joined" ∧ w.call.voice_id.toStr.isSome
        then [w.now + 20000] else []) := by
  cases hv : e.voice_id.toStr <;> cases hw : w.call.voice_id.toStr <;>
  rcases state_cases e with h | h | h | h | ⟨h1, h2, h3, h4⟩ <;>
  by_cases hp : e.playstate = .str "playfinished" <;>
  simp [deliver, voiceEventHandler, stateBranch_incomingcall, stateBranch_disconnected,
    stateBranch_connected, stateBranch_joined, stateBranch_other,
    playstateBranch_playfinished, playstateBranch_other, *]

theorem deliver_effects (room_id : JSVal) (e : VoiceEvent) (w : World) :
    (deliver room_id e w).effects = w.effects ++ newEffects room_id e w := by
  unfold newEffects
  cases hv : e.voice_id.toStr <;> cases hw : w.call.voice_id.toStr <;>
  rcases state_cases e with h | h | h | h | ⟨h1, h2, h3, h4⟩ <;>
  by_cases hp : e.playstate = .str "playfinished" <;>
  simp [deliver, voiceEventHandler, stateBranch_incomingcall, stateBranch_disconnected,
    stateBranch_connected, stateBranch_joined, stateBranch_other,
    playstateBranch_playfinished, playstateBranch_other, *]

theorem newEffects_armed (room_id : JSVal) (e : VoiceEvent) (w : World) :
    armedDelays (newEffects room_id e w) =
      (if e.state = .str "joined" ∧ w.call.voice_id.toStr.isSome then [20000] else []) := by
  unfold newEffects
  cases hv : e.voice_id.toStr <;> cases hw : w.call.voice_id.toStr <;>
  rcases state_cases e with h | h | h | h | ⟨h1, h2, h3, h4⟩ <;>
  by_cases hp : e.playstate = .str "playfinished" <;>
  simp [deliver, voiceEventHandler, stateBranch_incomingcall, stateBranch_disconnected,
    stateBranch_connected, stateBranch_joined, stateBranch_other,
    playstateBranch_playfinished, playstateBranch_other, armedDelays, *]

theorem deliver_call (room_id : JSVal) (e : VoiceEvent) (w : World) :
    (deliver room_id e w).call =
      (if e.state = .str "incomingcall" then { voice_id := e.voice_id, to_ := e.to_ }
        else w.call) := by
  cases hv : e.voice_id.toStr <;> cases hw : w.call.voice_id.toStr <;>
  rcases state_cases e with h | h | h | h | ⟨h1, h2, h3, h4⟩ <;>
  by_cases hp : e.playstate = .str "playfinished" <;>
  simp [deliver, voiceEventHandler, stateBranch_incomingcall, stateBranch_disconnected,
    stateBranch_connected, stateBranch_joined, stateBranch_other,
    playstateBranch_playfinished, playstateBranch_other, *]

theorem newEffects_joinRooms (room_id : JSVal) (e : VoiceEvent) (w : World) :
    joinRooms (newEffects room_id e w) =
      (if e.playstate = .str "playfinished" ∧
          (deliver room_id e w).call.voice_id.toStr.isSome
        then [.JoinRoom (deliver room_id e w).call.voice_id room_id] else []) := by
  unfold newEffects
  cases hv : e.voice_id.toStr <;> cases hw : w.call.voice_id.toStr <;>
  rcases state_cases e with h | h | h | h | ⟨h1, h2, h3, h4⟩ <;>
  by_cases hp : e.playstate = .str "playfinished" <;>
  simp [deliver, voiceEventHandler, stateBranch_incomingcall, stateBranch_disconnected,
    stateBranch_connected, stateBranch_joined, stateBranch_other,
    playstateBranch_playfinished, playstateBranch_other, joinRooms, *]

/-- C1, as stated, fails: on `{state: 'incomingcall', voice_id: {"toString": 1},
playstate: 'playfinished'}` handled in the initial state, the handler raises a TypeError at
the template literal of the `incomingcall` case and `JoinRoom` is not invoked, although
`playstate` is `playfinished`. -/
theorem joinRoom_missing_when_conversion_throws :
    ({ incomingNoText with playstate := .str "playfinished" } : VoiceEvent).playstate =
      .str "playfinished" ∧
    joinRooms (newEffects (.str "room-1")
      { incomingNoText with playstate := .str "playfinished" } init) = [] ∧
    (deliver (.str "room-1")
      { incomingNoText with playstate := .str "playfinished" } init).thrown = 1 := by
  decide

/-- C1, amended: handling a notification adds exactly one `JoinRoom` invocation to the log
when its `playstate` is the string `playfinished` and `call.voice_id`, as it stands when the
playstate branch runs, has a string conversion; it adds none otherwise, whatever `state` is
and whatever the state before was. The invocation carries that `call.voice_id` (the value of
the notification itself when its `state` is `incomingcall`, the value tracked before
otherwise) and the configured `room_id`. -/
theorem voiceEventHandler_joinRoom (room_id : JSVal) (e : VoiceEvent) (w : World) :
    (deliver room_id e w).effects = w.effects ++ newEffects room_id e w ∧
    joinRooms (newEffects room_id e w) =
      (if e.playstate = .str "playfinished" ∧
          (deliver room_id e w).call.voice_id.toStr.isSome
        then [.JoinRoom (deliver room_id e w).call.voice_id room_id] else []) ∧
    (deliver room_id e w).call.voice_id =
      (if e.state = .str "incomingcall" then e.voice_id else w.call.voice_id) := by
  refine ⟨deliver_effects room_id e w, newEffects_joinRooms room_id e w, ?_⟩
  rw [deliver_call]
  split <;> rfl

/-- C2, as stated, fails: on `{state: 'incomingcall', voice_id: {"toString": 1},
to: '+1555'}` handled in the initial state, the handler assigns `activeCall` and `call`,
then raises a TypeError at the template literal: no status is queued and `acceptCall` is not
invoked. -/
theorem incomingcall_throws_before_acceptCall :
    deliver (.str "room-1") incomingNoText init =
      { init with
        activeCall := true
        call := { voice_id := .object none, to_ := .str "+1555" }
        thrown := 1 } ∧
    (deliver (.str "room-1") incomingNoText init).sseMsg = [] ∧
    (deliver (.str "room-1") incomingNoText init).effects = [] := by
  decide

/-- C2, amended: on a notification with `state` `incomingcall`, `voice_id` `v`, `to` `t` and
no `playstate`, the handler sets `activeCall`, `call.voice_id` and `call.to`. When `v` has the
string conversion `s` it then appends the one status `[s] Received an inbound Call` at the
end of the queue and adds to the log the `logger.info` call and exactly one `acceptCall(v)`:
no `hangupCall`, no `JoinRoom`, no timer (pending timers, clock and stream are those
before). When `v` has no string conversion it raises a TypeError right after the three
assignments. -/
theorem voiceEventHandler_incomingcall (room_id v t : JSVal) (w : World) :
    voiceEventHandler room_id
        { state := .str "incomingcall", voice_id := v, to_ := t, playstate := .undefined } w =
      match v.toStr with
      | some s =>
        .ok { now := w.now
              activeCall := true
              call := { voice_id := v, to_ := t }
              sseMsg := w.sseMsg ++ ["[" ++ s ++ "] Received an inbound Call"]
              timers := w.timers
              effects := w.effects ++
                [.loggerInfo ("[" ++ s ++ "] Received an inbound Call"), .acceptCall v]
              stream := w.stream
              thrown := w.thrown
              exited := w.exited }
      | none =>
        .error { now := w.now
                 activeCall := true
                 call := { voice_id := v, to_ := t }
                 sseMsg := w.sseMsg
                 timers := w.timers
                 effects := w.effects
                 stream := w.stream
                 thrown := w.thrown
                 exited := w.exited } := by
  cases hv : v.toStr <;>
  simp [voiceEventHandler, stateBranch_incomingcall, playstateBranch_other, hv]

/-- C3: a notification whose `state` is none of `incomingcall`, `disconnected`, `connected`,
`joined` (absent included) and whose `playstate` is not `playfinished` (absent included)
makes the handler return without an error and leaves the whole state as it is: call record,
queue, pending timers and log of effects; so does any number of repeated deliveries. -/
theorem voiceEventHandler_noop (room_id : JSVal) (e : VoiceEvent) (w : World)
    (h1 : e.state ≠ .str "incomingcall") (h2 : e.state ≠ .str "disconnected")
    (h3 : e.state ≠ .str "connected") (h4 : e.state ≠ .str "joined")
    (hp : e.playstate ≠ .str "playfinished") :
    voiceEventHandler room_id e w = .ok w ∧
    ∀ n : Nat, (deliver room_id e)^[n] w = w := by
  have h : voiceEventHandler room_id e w = .ok w := by
    simp [voiceEventHandler, stateBranch_other _ _ h1 h2 h3 h4, playstateBranch_other _ _ _ hp]
  have hd : deliver room_id e w = w := by
    simp [deliver, h]
  exact ⟨h, fun n => Function.iterate_fixed hd n⟩

/-- Witness for C3: the notification `{state: 'ringback'}`, delivered three times after an
inbound call was received. -/
theorem voiceEventHandler_noop_witness :
    voiceEventHandler (.str "room-1") (stateEvent "ringback")
        (deliver (.str "room-1") incomingV1 init) =
      .ok (deliver (.str "room-1") incomingV1 init) ∧
    (deliver (.str "room-1") (stateEvent "ringback"))^[3]
        (deliver (.str "room-1") incomingV1 init) =
      deliver (.str "room-1") incomingV1 init :=
  ⟨(voiceEventHandler_noop _ _ _ (by decide) (by decide) (by decide) (by decide)
      (by decide)).1,
   (voiceEventHandler_noop _ _ _ (by decide) (by decide) (by decide) (by decide)
      (by decide)).2 3⟩

/-- C10, as stated, fails in its example: when the tracked `call.voice_id` has no string
conversion (left by `{state: 'incomingcall', voice_id: {"toString": 1}}`), the notification
`{state: 'connected', playstate: 'playfinished'}` raises a TypeError in the `connected`
case: it queues no status and invokes no `JoinRoom`. -/
theorem connected_playfinished_throws :
    (deliver (.str "room-1")
      { emptyEvent with state := .str "connected", playstate := .str "playfinished" }
      (deliver (.str "room-1") incomingNoText init)).sseMsg = [] ∧
    joinRooms (newEffects (.str "room-1")
      { emptyEvent with state := .str "connected", playstate := .str "playfinished" }
      (deliver (.str "room-1") incomingNoText init)) = [] := by
  decide

/-- C10, amended: the `state` branch and the `playstate` branch run in that order and
handling `e` gives the same state (call record, `activeCall`, queue, timers, log of effects)
as handling first the notification with only the properties `state`, `voice_id`, `to` of `e`
and then the notification with only its `playstate`; the two differ in the number of errors
only: where the `state` branch raises a TypeError the whole notification raises that one
error and skips the `playstate` branch, the split raises a second one when `playstate` is
`playfinished`. When the tracked `call.voice_id` has the string conversion `s`, `state`
`connected` with `playstate` `playfinished` queues the connected status, then the playback
status, and invokes `JoinRoom` once. -/
theorem voiceEventHandler_branches_independent (room_id : JSVal) (e : VoiceEvent) (w : World)
    (s : String) (hs : w.call.voice_id.toStr = some s) :
    (∀ x : World, deliver room_id (playstateOnly e) (deliver room_id (stateOnly e) x) =
      { deliver room_id e x with
        thrown := (deliver room_id e x).thrown +
          (if (deliver room_id (stateOnly e) x).thrown = x.thrown + 1 ∧
              e.playstate = .str "playfinished" then 1 else 0) }) ∧
    (deliver room_id
        { e with state := .str "connected", playstate := .str "playfinished" } w).sseMsg =
      w.sseMsg ++ ["[" ++ s ++ "] Call is connected",
        "[" ++ s ++ "] Received playfinsihed event"] ∧
    joinRooms (newEffects room_id
        { e with state := .str "connected", playstate := .str "playfinished" } w) =
      [.JoinRoom w.call.voice_id room_id] := by
  refine ⟨?_, ?_, ?_⟩
  · intro x
    have e1 : (stateOnly e).state = e.state := rfl
    have e2 : (stateOnly e).voice_id = e.voice_id := rfl
    have e3 : (stateOnly e).to_ = e.to_ := rfl
    have e4 : (stateOnly e).playstate = .undefined := rfl
    have e5 : (playstateOnly e).state = .undefined := rfl
    have e6 : (playstateOnly e).playstate = e.playstate := rfl
    cases hv : e.voice_id.toStr <;> cases hx : x.call.voice_id.toStr <;>
    rcases state_cases e with h | h | h | h | ⟨h1, h2, h3, h4⟩ <;>
    by_cases hp : e.playstate = .str "playfinished" <;>
    simp [deliver, voiceEventHandler, stateBranch_incomingcall, stateBranch_disconnected,
      stateBranch_connected, stateBranch_joined, stateBranch_other,
      playstateBranch_playfinished, playstateBranch_other, e1, e2, e3, e4, e5, e6, *]
  · simp [deliver, voiceEventHandler, stateBranch_connected, playstateBranch_playfinished, hs]
  · simp [newEffects, deliver, voiceEventHandler, stateBranch_connected,
      playstateBranch_playfinished, hs, joinRooms]

/-- Witness for the amended C10: after the inbound call `V1`, the notification
`{state: 'connected', playstate: 'playfinished'}`. -/
theorem voiceEventHandler_branches_independent_witness :
    joinRooms (newEffects (.str "room-1")
        { emptyEvent with state := .str "connected", playstate := .str "playfinished" }
        (deliver (.str "room-1") incomingV1 init)) =
      [.JoinRoom (deliver (.str "room-1") incomingV1 init).call.voice_id (.str "room-1")] :=
  (voiceEventHandler_branches_independent (.str "room-1") emptyEvent
    (deliver (.str "room-1") incomingV1 init) "V1" rfl).2.2

/-- C9: evaluation on the tracked call `V1`. The status queued for a `playfinished`
notification reads `Received playfinsihed event`, which is not the text
`Received playfinished event`. -/
theorem voiceEventHandler_playfinished_text :
    (deliver (.str "room-1") { emptyEvent with playstate := .str "playfinished" }
        { init with call := { voice_id := .str "V1", to_ := .str "+1555" } }).sseMsg =
      ["[V1] Received playfinsihed event"] ∧
    "[V1] Received playfinsihed event" ≠ "[V1] Received playfinished event" := by
  decide

/-! ## Arming the timeout -/

theorem armedDelays_append (a b : List Effect) :
    armedDelays (a ++ b) = armedDelays a ++ armedDelays b := by
  induction a with
  | nil => rfl
  | cons x rest ih => cases x <;> simp [armedDelays, ih]

theorem handleAll_cons (room_id : JSVal) (e : VoiceEvent) (rest : List VoiceEvent)
    (w : World) :
    handleAll room_id (e :: rest) w = handleAll room_id rest (deliver room_id e w) := rfl

theorem handleAll_append (room_id : JSVal) (xs ys : List VoiceEvent) (w : World) :
    handleAll room_id (xs ++ ys) w = handleAll room_id ys (handleAll room_id xs w) := by
  simp [handleAll, List.foldl_append]

theorem deliver_converts (room_id : JSVal) (e : VoiceEvent) (w : World)
    (he : e.state = .str "incomingcall" → e.voice_id.toStr.isSome = true)
    (hw : w.call.voice_id.toStr.isSome = true) :
    (deliver room_id e w).call.voice_id.toStr.isSome = true := by
  rw [deliver_call]
  by_cases h : e.state = .str "incomingcall"
  · simpa [h] using he h
  · simpa [h] using hw

theorem handleAll_armed (room_id : JSVal) (es : List VoiceEvent) (w : World)
    (hes : ∀ e ∈ es, e.state = .str "incomingcall" → e.voice_id.toStr.isSome = true)
    (hw : w.call.voice_id.toStr.isSome = true) :
    armedDelays (handleAll room_id es w).effects =
      armedDelays w.effects ++
        List.replicate (es.countP (fun e => e.state = .str "joined")) 20000 ∧
    (handleAll room_id es w).timers =
      w.timers ++
        List.replicate (es.countP (fun e => e.state = .str "joined")) (w.now + 20000) ∧
    (handleAll room_id es w).call.voice_id.toStr.isSome = true := by
  induction es generalizing w with
  | nil => simp [handleAll, hw]
  | cons e rest ih =>
    have hconv := deliver_converts room_id e w (hes e (List.mem_cons_self _ _)) hw
    have ih2 := ih (deliver room_id e w) (fun x hx => hes x (List.mem_cons_of_mem _ hx)) hconv
    rw [handleAll_cons]
    refine ⟨?_, ?_, ih2.2.2⟩
    · rw [ih2.1, deliver_effects, armedDelays_append, newEffects_armed]
      by_cases h : e.state = .str "joined"
      · simp [h, hw, List.countP_cons, List.replicate_succ]
      · simp [h, List.countP_cons]
    · rw [ih2.2.1, deliver_timers, (deliver_frame room_id e w).1]
      by_cases h : e.state = .str "joined"
      · simp [h, hw, List.countP_cons, List.replicate_succ]
      · simp [h, List.countP_cons]

theorem handleAll_armed_none (room_id : JSVal) (es : List VoiceEvent) (w : World)
    (hes : ∀ e ∈ es, e.state ≠ .str "joined") :
    armedDelays (handleAll room_id es w).effects = armedDelays w.effects ∧
    (handleAll room_id es w).timers = w.timers := by
  induction es generalizing w with
  | nil => simp [handleAll]
  | cons e rest ih =>
    have ih2 := ih (deliver room_id e w) (fun x hx => hes x (List.mem_cons_of_mem _ hx))
    have h := hes e (List.mem_cons_self _ _)
    rw [handleAll_cons, ih2.1, ih2.2, deliver_effects, armedDelays_append, newEffects_armed,
      deliver_timers]
    simp [h]

theorem countP_joined_eq_zero (l : List VoiceEvent)
    (h : ∀ e ∈ l, e.state ≠ .str "joined") :
    l.countP (fun e => e.state = .str "joined") = 0 := by
  rw [List.countP_eq_zero]
  intro e he
  simpa using h e he

/-- C6, as stated, fails: after `{state: 'incomingcall', voice_id: {"toString": 1}}` the
notification `{state: 'joined'}` raises a TypeError at its template literal, before
`setTimeout`: the only `joined` notification of the sequence arms no timer and queues no
status. -/
theorem joined_arms_nothing_when_conversion_throws :
    armedDelays (handleAll (.str "room-1") [incomingNoText, stateEvent "joined"] init).effects
      = [] ∧
    (handleAll (.str "room-1") [incomingNoText, stateEvent "joined"] init).timers = [] ∧
    (handleAll (.str "room-1") [incomingNoText, stateEvent "joined"] init).sseMsg = [] := by
  decide

/-- C6, amended: handling one notification arms the timeout exactly when its `state` is
`joined` and the tracked `call.voice_id` has a string conversion, then exactly once and with
delay 20000 ms (deadline: the current time plus 20000), and that notification appends the
status `[voice_id] Call joined Video Room` to the queue. Hence, from the initial state, a
sequence of notifications whose `incomingcall` notifications carry a `voice_id` with a
string conversion arms as many timers as it has `joined` notifications; when `j` is its only
`joined` notification, no prefix ending before `j` arms a timer and exactly one timer is
armed once `j` is handled and at the end. -/
theorem timeout_armed_by_joined (room_id : JSVal) (pre post : List VoiceEvent)
    (j : VoiceEvent) (hj : j.state = .str "joined")
    (hpre : ∀ e ∈ pre, e.state ≠ .str "joined")
    (hpost : ∀ e ∈ post, e.state ≠ .str "joined")
    (hconv : ∀ e ∈ pre, e.state = .str "incomingcall" → e.voice_id.toStr.isSome = true) :
    (∀ (e : VoiceEvent) (w : World),
      armedDelays (newEffects room_id e w) =
        (if e.state = .str "joined" ∧ w.call.voice_id.toStr.isSome then [20000] else []) ∧
      (deliver room_id e w).timers =
        w.timers ++ (if e.state = .str "joined" ∧ w.call.voice_id.toStr.isSome
          then [w.now + 20000] else [])) ∧
    (∀ (w : World) (s : String), w.call.voice_id.toStr = some s →
      (deliver room_id j w).sseMsg =
        w.sseMsg ++ ["[" ++ s ++ "] Call joined Video Room"] ++
          (if j.playstate = .str "playfinished"
            then ["[" ++ s ++ "] Received playfinsihed event"] else [])) ∧
    (∀ es : List VoiceEvent,
      (∀ e ∈ es, e.state = .str "incomingcall" → e.voice_id.toStr.isSome = true) →
      armedDelays (handleAll room_id es init).effects =
        List.replicate (es.countP (fun e => e.state = .str "joined")) 20000) ∧
    (∀ n : Nat, armedDelays (handleAll room_id (pre.take n) init).effects = []) ∧
    armedDelays (handleAll room_id (pre ++ [j]) init).effects = [20000] ∧
    (handleAll room_id (pre ++ [j]) init).timers = [20000] ∧
    armedDelays (handleAll room_id (pre ++ j :: post) init).effects = [20000] := by
  have hinit : init.call.voice_id.toStr.isSome = true := rfl
  have hj1 : armedDelays (handleAll room_id (pre ++ [j]) init).effects = [20000] ∧
      (handleAll room_id (pre ++ [j]) init).timers = [20000] := by
    have h := handleAll_armed room_id (pre ++ [j]) init (by
      intro e he
      rcases List.mem_append.1 he with h1 | h1
      · exact hconv e h1
      · intro h2
        simp at h1
        rw [h1, hj] at h2
        exact absurd h2 (by decide)) hinit
    refine ⟨?_, ?_⟩
    · rw [h.1]
      simp [List.countP_append, countP_joined_eq_zero _ hpre, hj, init, armedDelays]
    · rw [h.2.1]
      simp [List.countP_append, countP_joined_eq_zero _ hpre, hj, init]
  refine ⟨fun e w => ⟨newEffects_armed room_id e w, deliver_timers room_id e w⟩,
    ?_, ?_, ?_, hj1.1, hj1.2, ?_⟩
  · intro w s hs
    by_cases hp : j.playstate = .str "playfinished"
    · simp [deliver, voiceEventHandler, stateBranch_joined _ _ hj,
        playstateBranch_playfinished _ _ _ hp, hp, hs]
    · simp [deliver, voiceEventHandler, stateBranch_joined _ _ hj,
        playstateBranch_other _ _ _ hp, hp, hs]
  · intro es hes
    rw [(handleAll_armed room_id es init hes hinit).1]
    simp [init, armedDelays]
  · intro n
    rw [(handleAll_armed_none room_id (pre.take n) init
      (fun e he => hpre e (List.mem_of_mem_take he))).1]
    rfl
  · have happ : pre ++ j :: post = (pre ++ [j]) ++ post := by simp
    rw [happ, handleAll_append, (handleAll_armed_none room_id post _ hpost).1]
    exact hj1.1

/-- Witness for the amended C6: an inbound call, then `connected`, then the only `joined`,
then `disconnected`. -/
theorem timeout_armed_by_joined_witness :
    armedDelays (handleAll (.str "room-1")
      ([incomingV1, stateEvent "connected"] ++ stateEvent "joined" ::
        [stateEvent "disconnected"]) init).effects = [20000] :=
  (timeout_armed_by_joined (.str "room-1") [incomingV1, stateEvent "connected"]
    [stateEvent "disconnected"] (stateEvent "joined") rfl (by decide) (by decide)
    (by decide)).2.2.2.2.2.2

/-! ## The timeout in a run -/

theorem timeOutHandler_ok (w : World) (s : String) (hs : w.call.voice_id.toStr = some s) :
    timeOutHandler w =
      .ok { w with
        effects := w.effects ++
          [.loggerInfo ("[" ++ s ++ "] Disconnecting the call"),
            .hangupCall w.call.voice_id, .shutdown]
        exited := true } := by
  simp [timeOutHandler, hs, shutdown]

theorem fireTimers_exited (l : List Nat) (w : World) (h : w.exited = true) :
    fireTimers l w = w := by
  cases l <;> simp [fireTimers, h]

theorem fireTimers_cons_live (d : Nat) (rest : List Nat) (w : World) (s : String)
    (hlive : w.exited = false) (hs : w.call.voice_id.toStr = some s) :
    fireTimers (d :: rest) w =
      { w with
        effects := w.effects ++
          [.loggerInfo ("[" ++ s ++ "] Disconnecting the call"),
            .hangupCall w.call.voice_id, .shutdown]
        exited := true } := by
  simp only [fireTimers, hlive, timeOutHandler_ok w s hs]
  exact fireTimers_exited _ _ rfl

theorem fireTimers_frame (l : List Nat) (w : World) :
    (fireTimers l w).now = w.now ∧ (fireTimers l w).timers = w.timers ∧
    (fireTimers l w).call = w.call ∧
    (w.exited = true → (fireTimers l w).exited = true) := by
  cases l with
  | nil => simp [fireTimers]
  | cons d rest =>
    by_cases hx : w.exited = true
    · simp [fireTimers, hx]
    · have hlive : w.exited = false := by simpa using hx
      cases hs : w.call.voice_id.toStr with
      | none => simp [fireTimers, hlive, timeOutHandler, hs]
      | some s => simp [fireTimers_cons_live d rest w s hlive hs, hlive]

theorem drainTick_keeps (id : String) (w : World) :
    (drainTick id w).call = w.call ∧ (drainTick id w).timers = w.timers ∧
    (drainTick id w).now = w.now ∧ (drainTick id w).effects = w.effects ∧
    (drainTick id w).exited = w.exited := by
  unfold drainTick
  split <;> simp

theorem step_now (room_id : JSVal) (w : World) (x : Step) :
    (step room_id w x).now = w.now + elapsed [x] := by
  cases x with
  | notify e =>
    by_cases hx : w.exited = true
    · simp [step, hx, elapsed]
    · simp [step, hx, elapsed, (deliver_frame room_id e w).1]
  | tick id =>
    by_cases hx : w.exited = true
    · simp [step, hx, elapsed]
    · simp [step, hx, elapsed, (drainTick_keeps id w).2.2.1]
  | elapse ms =>
    by_cases hx : w.exited = true
    · simp [step, hx, elapsed]
    · simp [step, hx, elapsed, fireDue, (fireTimers_frame _ _).1]

theorem step_exited (room_id : JSVal) (w : World) (x : Step) (h : w.exited = true) :
    (step room_id w x).exited = true := by
  cases x <;> simp [step, h]

theorem step_call (room_id : JSVal) (w : World) (x : Step)
    (h : ∀ e, x = .notify e → e.state ≠ .str "incomingcall") :
    (step room_id w x).call = w.call := by
  cases x with
  | notify e =>
    by_cases hx : w.exited = true
    · simp [step, hx]
    · simp [step, hx, deliver_call, h e rfl]
  | tick id =>
    by_cases hx : w.exited = true
    · simp [step, hx]
    · simp [step, hx, (drainTick_keeps id w).1]
  | elapse ms =>
    by_cases hx : w.exited = true
    · simp [step, hx]
    · simp [step, hx, fireDue, (fireTimers_frame _ _).2.2.1]

theorem step_converts (room_id : JSVal) (w : World) (x : Step)
    (h : ∀ e, x = .notify e → e.state = .str "incomingcall" → e.voice_id.toStr.isSome = true)
    (hw : w.call.voice_id.toStr.isSome = true) :
    (step room_id w x).call.voice_id.toStr.isSome = true := by
  cases x with
  | notify e =>
    by_cases hx : w.exited = true
    · simpa [step, hx] using hw
    · simpa [step, hx] using deliver_converts room_id e w (h e rfl) hw
  | tick id => rw [step_call room_id w _ (by simp)]; exact hw
  | elapse ms => rw [step_call room_id w _ (by simp)]; exact hw

theorem step_pending (room_id : JSVal) (w : World) (x : Step) (deadline : Nat)
    (hmem : deadline ∈ w.timers) (hlt : w.now + elapsed [x] < deadline) :
    deadline ∈ (step room_id w x).timers := by
  cases x with
  | notify e =>
    by_cases hx : w.exited = true
    · simpa [step, hx] using hmem
    · simp only [step, hx, Bool.false_eq_true, if_false, deliver_timers]
      exact List.mem_append_left _ hmem
  | tick id =>
    by_cases hx : w.exited = true
    · simpa [step, hx] using hmem
    · simpa [step, hx, (drainTick_keeps id w).2.1] using hmem
  | elapse ms =>
    have hlt2 : w.now + ms < deadline := by simpa [elapsed] using hlt
    by_cases hx : w.exited = true
    · simpa [step, hx] using hmem
    · simp only [step, hx, Bool.false_eq_true, if_false, fireDue, (fireTimers_frame _ _).2.1,
        List.mem_filter]
      refine ⟨hmem, ?_⟩
      simp
      omega

theorem run_cons (room_id : JSVal) (x : Step) (rest : List Step) (w : World) :
    run room_id (x :: rest) w = run room_id rest (step room_id w x) := rfl

theorem run_append (room_id : JSVal) (xs ys : List Step) (w : World) :
    run room_id (xs ++ ys) w = run room_id ys (run room_id xs w) := by
  simp [run, List.foldl_append]

theorem elapsed_cons (x : Step) (rest : List Step) :
    elapsed (x :: rest) = elapsed [x] + elapsed rest := by
  cases x <;> simp [elapsed]

theorem elapsed_append (xs ys : List Step) :
    elapsed (xs ++ ys) = elapsed xs + elapsed ys := by
  induction xs with
  | nil => simp [elapsed]
  | cons x rest ih =>
    rw [List.cons_append, elapsed_cons, ih, elapsed_cons x rest, Nat.add_assoc]

theorem run_now (room_id : JSVal) (steps : List Step) (w : World) :
    (run room_id steps w).now = w.now + elapsed steps := by
  induction steps generalizing w with
  | nil => simp [run, elapsed]
  | cons x rest ih => rw [run_cons, ih, step_now, elapsed_cons x rest, Nat.add_assoc]

theorem run_exited (room_id : JSVal) (steps : List Step) (w : World) (h : w.exited = true) :
    (run room_id steps w).exited = true := by
  induction steps generalizing w with
  | nil => exact h
  | cons x rest ih => exact ih _ (step_exited room_id w x h)

theorem run_live (room_id : JSVal) (steps : List Step) (w : World)
    (h : (run room_id steps w).exited = false) : w.exited = false := by
  by_cases hx : w.exited = true
  · rw [run_exited room_id steps w hx] at h
    exact absurd h (by decide)
  · simpa using hx

theorem run_call (room_id : JSVal) (steps : List Step) (w : World)
    (h : ∀ e, Step.notify e ∈ steps → e.state ≠ .str "incomingcall") :
    (run room_id steps w).call = w.call := by
  induction steps generalizing w with
  | nil => rfl
  | cons x rest ih =>
    rw [run_cons, ih _ (fun e he => h e (List.mem_cons_of_mem _ he))]
    exact step_call room_id w x (fun e he => h e (by rw [he]; exact List.mem_cons_self _ _))

theorem run_converts (room_id : JSVal) (steps : List Step) (w : World)
    (h : ∀ e, Step.notify e ∈ steps → e.state = .str "incomingcall" →
      e.voice_id.toStr.isSome = true)
    (hw : w.call.voice_id.toStr.isSome = true) :
    (run room_id steps w).call.voice_id.toStr.isSome = true := by
  induction steps generalizing w with
  | nil => exact hw
  | cons x rest ih =>
    rw [run_cons]
    apply ih _ (fun e he => h e (List.mem_cons_of_mem _ he))
    exact step_converts room_id w x
      (fun e he => h e (by rw [he]; exact List.mem_cons_self _ _)) hw

theorem run_pending (room_id : JSVal) (steps : List Step) (w : World) (deadline : Nat)
    (hmem : deadline ∈ w.timers) (hlt : w.now + elapsed steps < deadline) :
    deadline ∈ (run room_id steps w).timers := by
  induction steps generalizing w with
  | nil => exact hmem
  | cons x rest ih =>
    rw [elapsed_cons] at hlt
    rw [run_cons]
    apply ih
    · exact step_pending room_id w x deadline hmem (by omega)
    · rw [step_now]
      omega

theorem run_scenario (room_id : JSVal) (a b c : List Step) (x y : Step) (w : World) :
    run room_id (a ++ x :: b ++ y :: c) w =
      run room_id c (step room_id (run room_id b (step room_id (run room_id a w) x)) y) := by
  rw [run_append, run_cons, run_append, run_cons]

theorem step_joined (room_id : JSVal) (j : VoiceEvent) (w : World)
    (hj : j.state = .str "joined") (hlive : w.exited = false)
    (hw : w.call.voice_id.toStr.isSome = true) :
    (step room_id w (.notify j)).timers = w.timers ++ [w.now + 20000] := by
  simp [step, hlive, deliver_timers, hj, hw]

theorem step_elapse_fires (room_id : JSVal) (w : World) (ms deadline : Nat) (s : String)
    (hlive : w.exited = false) (hs : w.call.voice_id.toStr = some s)
    (hmem : deadline ∈ w.timers) (hdue : deadline ≤ w.now + ms) :
    step room_id w (.elapse ms) =
      { w with
        now := w.now + ms
        timers := w.timers.filter (fun d => ¬ d ≤ w.now + ms)
        effects := w.effects ++
          [.loggerInfo ("[" ++ s ++ "] Disconnecting the call"),
            .hangupCall w.call.voice_id, .shutdown]
        exited := true } := by
  have hne : w.timers.filter (fun d => d ≤ w.now + ms) ≠ [] := by
    apply List.ne_nil_of_mem (a := deadline)
    simp [List.mem_filter, hmem, hdue]
  obtain ⟨d, rest, hfil⟩ := List.exists_cons_of_ne_nil hne
  simp only [step, hlive, Bool.false_eq_true, if_false, fireDue]
  rw [hfil, fireTimers_cons_live d rest _ s (by rfl) (by exact hs)]

/-- C7, as stated, fails: in the sequence `joined`, `{state: 'incomingcall',
voice_id: {"toString": 1}}`, `joined` the first `joined` arms the timer; when its 20 s have
elapsed `timeOutHandler` raises a TypeError at its template literal, before `hangupCall`:
the log holds neither a `hangupCall` nor `shutdown`. -/
theorem timeout_throws_before_hangup :
    (run (.str "room-1")
      [.notify (stateEvent "joined"), .notify incomingNoText,
        .notify (stateEvent "joined")] init).timers = [20000] ∧
    (run (.str "room-1")
      [.notify (stateEvent "joined"), .notify incomingNoText,
        .notify (stateEvent "joined"), .elapse 20000] init).effects =
      [.loggerInfo "[undefined] Call joined Video Room", .setTimeout 20000] ∧
    (run (.str "room-1")
      [.notify (stateEvent "joined"), .notify incomingNoText,
        .notify (stateEvent "joined"), .elapse 20000] init).thrown = 3 := by
  decide

/-- C7, amended: in a run from the initial state in which `inc` is the last `incomingcall`
notification, with a `voice_id` `v` that has the string conversion `s`, `j` is a later
`joined` notification, less than 20000 ms have passed since `j` was handled and the process
is still running, the timer armed by `j` is pending; and when the 20000 ms have elapsed
`timeOutHandler` runs exactly once: it adds to the log its `logger.info` call, then
`hangupCall(v)`, then `shutdown`, which ends the process, and changes nothing else (call
record and queue are those before, no `acceptCall`, no `JoinRoom`). -/
theorem timeout_hangs_up (room_id v : JSVal) (s : String) (a b c : List Step)
    (inc j : VoiceEvent) (ms : Nat) (w : World)
    (hinc : inc.state = .str "incomingcall") (hv : inc.voice_id = v)
    (hs : v.toStr = some s)
    (hj : j.state = .str "joined")
    (hone : ∀ e, Step.notify e ∈ b ++ c → e.state ≠ .str "incomingcall")
    (hw : w = run room_id (a ++ .notify inc :: b ++ .notify j :: c) init)
    (hlive : w.exited = false)
    (hc : elapsed c < 20000) (hms : 20000 ≤ elapsed c + ms) :
    w.call.voice_id = v ∧
    timeOutHandler w =
      .ok { w with
        effects := w.effects ++
          [.loggerInfo ("[" ++ s ++ "] Disconnecting the call"),
            .hangupCall v, .shutdown]
        exited := true } ∧
    elapsed (a ++ .notify inc :: b) + 20000 ∈ w.timers ∧
    step room_id w (.elapse ms) =
      { w with
        now := w.now + ms
        timers := w.timers.filter (fun d => ¬ d ≤ w.now + ms)
        effects := w.effects ++
          [.loggerInfo ("[" ++ s ++ "] Disconnecting the call"),
            .hangupCall v, .shutdown]
        exited := true } := by
  -- the states along the run
  have hrun := run_scenario room_id a b c (.notify inc) (.notify j) init
  rw [← hw] at hrun
  set w1 := run room_id a init with hw1
  set w2 := step room_id w1 (.notify inc) with hw2
  set w3 := run room_id b w2 with hw3
  set w4 := step room_id w3 (.notify j) with hw4
  -- the process is running all along
  have hlive4 : w4.exited = false := run_live room_id c w4 (by rw [← hrun]; exact hlive)
  have hlive3 : w3.exited = false := run_live room_id [.notify j] w3 hlive4
  have hlive2 : w2.exited = false := run_live room_id b w2 hlive3
  have hlive1 : w1.exited = false := run_live room_id [.notify inc] w1 hlive2
  -- the tracked voice_id
  have hcall2 : w2.call.voice_id = v := by
    simp [hw2, step, hlive1, deliver_call, hinc, hv]
  have hcall3 : w3.call = w2.call :=
    run_call room_id b w2 (fun e he => hone e (List.mem_append_left _ he))
  have hcall4 : w4.call = w3.call :=
    step_call room_id w3 _ (fun e he => by
      injection he with he
      rw [← he, hj]
      decide)
  have hcall : w.call = w4.call := by
    rw [hrun]
    exact run_call room_id c w4 (fun e he => hone e (List.mem_append_right _ he))
  have hvid : w.call.voice_id = v := by rw [hcall, hcall4, hcall3, hcall2]
  have hconv : w.call.voice_id.toStr = some s := by rw [hvid, hs]
  have hconv3 : w3.call.voice_id.toStr.isSome = true := by rw [hcall3, hcall2, hs]; rfl
  -- the clock
  have hnow3 : w3.now = elapsed (a ++ .notify inc :: b) := by
    have h := run_now room_id (a ++ .notify inc :: b) init
    rw [run_append, run_cons] at h
    simpa [init] using h
  have hnow4 : w4.now = w3.now := by
    rw [hw4, step_now]
    rfl
  have hnow : w.now = w4.now + elapsed c := by
    rw [hrun]
    exact run_now room_id c w4
  -- the timer armed by `j`
  have hmem4 : w3.now + 20000 ∈ w4.timers := by
    rw [hw4, step_joined room_id j w3 hj hlive3 hconv3]
    simp
  have hmem : w3.now + 20000 ∈ w.timers := by
    rw [hrun]
    exact run_pending room_id c w4 _ hmem4 (by omega)
  have hfire := step_elapse_fires room_id w ms _ s hlive hconv hmem (by omega)
  rw [hvid] at hfire
  refine ⟨hvid, ?_, ?_, hfire⟩
  · rw [timeOutHandler_ok w s hconv, hvid]
  · rw [← hnow3]
    exact hmem

/-- Witness for the amended C7: an inbound call `V1`, `connected`, `joined`, then 5 s later
the `playfinished` signal and a drain tick; 15 s after that the timer fires. -/
theorem timeout_hangs_up_witness :
    step (.str "room-1")
        (run (.str "room-1")
          ([] ++ .notify incomingV1 :: [.notify (stateEvent "connected")] ++
            .notify (stateEvent "joined") ::
              [.elapse 5000, .notify playfinishedEvent, .tick "10:00:00 AM"]) init)
        (.elapse 15000) =
      { run (.str "room-1")
          ([] ++ .notify incomingV1 :: [.notify (stateEvent "connected")] ++
            .notify (stateEvent "joined") ::
              [.elapse 5000, .notify playfinishedEvent, .tick "10:00:00 AM"]) init with
        now := (run (.str "room-1")
          ([] ++ .notify incomingV1 :: [.notify (stateEvent "connected")] ++
            .notify (stateEvent "joined") ::
              [.elapse 5000, .notify playfinishedEvent, .tick "10:00:00 AM"]) init).now + 15000
        timers := (run (.str "room-1")
          ([] ++ .notify incomingV1 :: [.notify (stateEvent "connected")] ++
            .notify (stateEvent "joined") ::
              [.elapse 5000, .notify playfinishedEvent, .tick "10:00:00 AM"]) init).timers.filter
          (fun d => ¬ d ≤ (run (.str "room-1")
            ([] ++ .notify incomingV1 :: [.notify (stateEvent "connected")] ++
              .notify (stateEvent "joined") ::
                [.elapse 5000, .notify playfinishedEvent, .tick "10:00:00 AM"]) init).now
            + 15000)
        effects := (run (.str "room-1")
          ([] ++ .notify incomingV1 :: [.notify (stateEvent "connected")] ++
            .notify (stateEvent "joined") ::
              [.elapse 5000, .notify playfinishedEvent, .tick "10:00:00 AM"]) init).effects ++
          [.loggerInfo ("[" ++ "V1" ++ "] Disconnecting the call"),
            .hangupCall (.str "V1"), .shutdown]
        exited := true } :=
  (timeout_hangs_up (.str "room-1") (.str "V1") "V1" [] [.notify (stateEvent "connected")]
    [.elapse 5000, .notify playfinishedEvent, .tick "10:00:00 AM"] incomingV1
    (stateEvent "joined") 15000 _ rfl rfl rfl rfl
    (by
      intro e he
      simp at he
      rcases he with rfl | rfl <;> decide)
    rfl (by decide) (by decide) (by decide)).2.2.2

/-- C8, as stated, fails: after `joined`, a `disconnected` notification handled 1 s later
leaves the timer pending, and once the 20 s have elapsed the timeout handler still invokes
`hangupCall` and `shutdown`. -/
theorem timeout_not_cancelled_example :
    (run (.str "room-1")
      [.notify incomingV1, .notify (stateEvent "joined"), .elapse 1000,
        .notify (stateEvent "disconnected")] init).timers = [20000] ∧
    (run (.str "room-1")
      [.notify incomingV1, .notify (stateEvent "joined"), .elapse 1000,
        .notify (stateEvent "disconnected"), .elapse 19000] init).effects =
      (run (.str "room-1")
        [.notify incomingV1, .notify (stateEvent "joined"), .elapse 1000,
          .notify (stateEvent "disconnected")] init).effects ++
        [.loggerInfo "[V1] Disconnecting the call", .hangupCall (.str "V1"), .shutdown] := by
  decide

/-- C8, amended: a `disconnected` notification removes no pending timer. In a run from the
initial state whose `incomingcall` notifications carry a `voice_id` with a string
conversion, where `d`, with `state` `disconnected`, is handled after the `joined`
notification `j`, less than 20000 ms have passed since `j` and the process is still
running, the timer armed by `j` is still pending; once the 20000 ms have elapsed
`timeOutHandler` runs, exactly once, and adds `hangupCall(call.voice_id)` and then
`shutdown` to the log, which ends the process. -/
theorem timeout_survives_disconnected (room_id : JSVal) (a b c : List Step)
    (j d : VoiceEvent) (ms : Nat) (w : World)
    (hj : j.state = .str "joined") (hd : d.state = .str "disconnected")
    (hconv : ∀ e, Step.notify e ∈ a ++ b ++ c → e.state = .str "incomingcall" →
      e.voice_id.toStr.isSome = true)
    (hw : w = run room_id (a ++ .notify j :: b ++ .notify d :: c) init)
    (hlive : w.exited = false)
    (hlt : elapsed b + elapsed c < 20000) (hms : 20000 ≤ elapsed b + elapsed c + ms) :
    (∀ x : World, (deliver room_id d x).timers = x.timers) ∧
    elapsed a + 20000 ∈ w.timers ∧
    ∃ s : String, w.call.voice_id.toStr = some s ∧
      step room_id w (.elapse ms) =
        { w with
          now := w.now + ms
          timers := w.timers.filter (fun t => ¬ t ≤ w.now + ms)
          effects := w.effects ++
            [.loggerInfo ("[" ++ s ++ "] Disconnecting the call"),
              .hangupCall w.call.voice_id, .shutdown]
          exited := true } := by
  have hrun : w = run room_id (b ++ .notify d :: c)
      (step room_id (run room_id a init) (.notify j)) := by
    rw [hw, run_scenario, run_append, run_cons]
  have hel : elapsed (b ++ .notify d :: c) = elapsed b + elapsed c := by
    rw [elapsed_append]
    rfl
  set w1 := run room_id a init with hw1
  set w2 := step room_id w1 (.notify j) with hw2
  have hlive2 : w2.exited = false := run_live room_id _ w2 (by rw [← hrun]; exact hlive)
  have hlive1 : w1.exited = false := run_live room_id [.notify j] w1 hlive2
  have hinit : init.call.voice_id.toStr.isSome = true := rfl
  have hconv1 : w1.call.voice_id.toStr.isSome = true :=
    run_converts room_id a init
      (fun e he => hconv e (List.mem_append_left _ (List.mem_append_left _ he))) hinit
  have hconvw : w.call.voice_id.toStr.isSome = true := by
    rw [hw]
    apply run_converts room_id _ init _ hinit
    intro e he hinc
    simp only [List.mem_append, List.mem_cons] at he
    rcases he with (he | he | he) | he | he
    · exact hconv e (by simp [he]) hinc
    · injection he with he
      rw [he, hj] at hinc
      exact absurd hinc (by decide)
    · exact hconv e (by simp [he]) hinc
    · injection he with he
      rw [he, hd] at hinc
      exact absurd hinc (by decide)
    · exact hconv e (by simp [he]) hinc
  have hnow1 : w1.now = elapsed a := by
    simpa [init] using run_now room_id a init
  have hnow2 : w2.now = w1.now := by
    rw [hw2, step_now]
    rfl
  have hnow : w.now = elapsed a + (elapsed b + elapsed c) := by
    rw [hrun, run_now, hel, hnow2, hnow1]
  have hmem : elapsed a + 20000 ∈ w.timers := by
    rw [hrun]
    apply run_pending
    · rw [hw2, step_joined room_id j w1 hj hlive1 hconv1, hnow1]
      simp
    · rw [hel, hnow2, hnow1]
      omega
  obtain ⟨s, hs⟩ := Option.isSome_iff_exists.1 hconvw
  refine ⟨?_, hmem, s, hs, step_elapse_fires room_id w ms _ s hlive hs hmem (by omega)⟩
  intro x
  rw [deliver_timers, hd]
  simp

/-- Witness for the amended C8: an inbound call `V1`, `joined`, 1 s later `disconnected`,
and 19 s after that the deadline. -/
theorem timeout_survives_disconnected_witness :
    (20000 : Nat) ∈ (run (.str "room-1")
      ([.notify incomingV1] ++ .notify (stateEvent "joined") :: [.elapse 1000] ++
        .notify (stateEvent "disconnected") :: []) init).timers :=
  (timeout_survives_disconnected (.str "room-1") [.notify incomingV1] [.elapse 1000] []
    (stateEvent "joined") (stateEvent "disconnected") 19000 _ rfl rfl
    (by
      intro e he _
      simp at he
      rw [he]
      decide)
    rfl (by decide) (by decide) (by decide)).2.1

theorem shutdown_stops_later_timers :
    (run (.str "room-1")
      [.notify incomingV1, .notify (stateEvent "joined"), .notify (stateEvent "joined"),
        .elapse 20000] init).effects =
      (run (.str "room-1")
        [.notify incomingV1, .notify (stateEvent "joined"),
          .notify (stateEvent "joined")] init).effects ++
        [.loggerInfo "[V1] Disconnecting the call", .hangupCall (.str "V1"), .shutdown] := by
  decide

/-! ## The drain tick of the event stream -/

theorem drainTick_nil (id : String) (w : World) (h : w.sseMsg = []) : drainTick id w = w := by
  simp [drainTick, h, isEmptyHead]

theorem drainTick_cons (id m : String) (rest : List String) (w : World)
    (h : w.sseMsg = m :: rest) (hm : m ≠ "") :
    drainTick id w =
      { w with
        stream := w.stream ++ ["id: " ++ id ++ "\n", "data: " ++ m ++ "\n\n"]
        sseMsg := (m :: rest).dropLast } := by
  simp [drainTick, h, isEmptyHead, hm]

/-- C5: evaluation on the queue left by an inbound call `V1` followed by `connected`. The
tick writes the delivery unit of the first entry and removes the last entry: the delivered
status stays in the queue and the undelivered `[V1] Call is connected` is gone. -/
theorem drainTick_removes_other_entry :
    (run (.str "room-1") [.notify incomingV1, .notify (stateEvent "connected")] init).sseMsg =
      ["[V1] Received an inbound Call", "[V1] Call is connected"] ∧
    (drainTick "10:00:00 AM"
      (run (.str "room-1") [.notify incomingV1, .notify (stateEvent "connected")] init)).stream =
      ["id: 10:00:00 AM\n", "data: [V1] Received an inbound Call\n\n"] ∧
    (drainTick "10:00:00 AM"
      (run (.str "room-1") [.notify incomingV1, .notify (stateEvent "connected")] init)).sseMsg =
      ["[V1] Received an inbound Call"] := by
  decide

/-- C4: evaluation on two notifications followed by two ticks of the one subscriber. The
queue held `[V1] Received an inbound Call` then `[V1] Call is connected`; the stream gets
the first status twice and the second never, and the queue is empty at the end. -/
theorem stream_duplicates_and_drops :
    (run (.str "room-1") [.notify incomingV1, .notify (stateEvent "connected")] init).sseMsg =
      ["[V1] Received an inbound Call", "[V1] Call is connected"] ∧
    (run (.str "room-1")
      [.notify incomingV1, .notify (stateEvent "connected"),
        .tick "10:00:00 AM", .tick "10:00:00 AM"] init).stream =
      ["id: 10:00:00 AM\n", "data: [V1] Received an inbound Call\n\n",
       "id: 10:00:00 AM\n", "data: [V1] Received an inbound Call\n\n"] ∧
    (run (.str "room-1")
      [.notify incomingV1, .notify (stateEvent "connected"),
        .tick "10:00:00 AM", .tick "10:00:00 AM"] init).sseMsg = [] := by
  decide

end InboundVideoRoom
